import Mathlib

/-!
Shallow embedding of the two code artifacts in this repository:

* the "knowledge base article → executable routine" notebook
  (`RoutineGen` namespace): loading articles, `generate_routine`,
  `process_article`, and the `ThreadPoolExecutor`-based fan-out; and
* the Snowflake middleware notebook (`SnowflakeApp` namespace): bearer-token
  extraction, the Snowflake connection block, query execution and CSV
  serialization, the Azure blob upload with SAS-token URL minting, the
  `openaiFileResponse` formatting, and the documented OpenAPI schema and
  Azure AD configuration patterns.

External services (the chat-completions endpoint, the Snowflake connector,
the blob store) are modelled as explicit function parameters returning
`Except`, where `Except.error` models a raised Python exception.  Logging
(`logger.error` / `logging.info` / `print`) is modelled by returning the list
of emitted log lines alongside the value.
-/

namespace RoutineGen

/-- The `CONVERSION_PROMPT` literal of the routine-generation notebook,
verbatim (the triple-quoted Python string). -/
def CONVERSION_PROMPT : String := "\nYou are a helpful assistant tasked with taking an external facing help center article and converting it into a internal-facing programmatically executable routine optimized for an LLM. \nThe LLM using this routine will be tasked with reading the policy, answering incoming questions from customers, and helping drive the case toward resolution.\n\nPlease follow these instructions:\n1. **Review the customer service policy carefully** to ensure every step is accounted for. It is crucial not to skip any steps or policies.\n2. **Organize the instructions into a logical, step-by-step order**, using the specified format.\n3. **Use the following format**:\n   - **Main actions are numbered** (e.g., 1, 2, 3).\n   - **Sub-actions are lettered** under their relevant main actions (e.g., 1a, 1b).\n      **Sub-actions should start on new lines**\n   - **Specify conditions using clear \x27if...then...else\x27 statements** (e.g., \x27If the product was purchased within 30 days, then...\x27).\n   - **For instructions that require more information from the customer**, provide polite and professional prompts to ask for additional information.\n   - **For actions that require data from external systems**, write a step to call a function using backticks for the function name (e.g., \x60call the check_delivery_date function\x60).\n      - **If a step requires the customer service agent to take an action** (e.g., process a refund), generate a function call for this action (e.g., \x60call the process_refund function\x60).\n      - **Define any new functions** by providing a brief description of their purpose and required parameters.\n   - **If there is an action an assistant can performon behalf of the user**, include a function call for this action (e.g., \x60call the change_email_address function\x60), and ensure the function is defined with its purpose and required parameters.\n      - This action may not be explicitly defined in the help center article, but can be done to help the user resolve their inquiry faster\n   - **The step prior to case resolution should always be to ask if there is anything more you can assist with**.\n   - **End with a final action for case resolution**: calling the \x60case_resolution\x60 function should always be the final step.\n4. **Ensure compliance** by making sure all steps adhere to company policies, privacy regulations, and legal requirements.\n5. **Handle exceptions or escalations** by specifying steps for scenarios that fall outside the standard policy.\n\n**Important**: If at any point you are uncertain, respond with \"I don\x27t know.\"\n\nPlease convert the customer service policy into the formatted routine, ensuring it is easy to follow and execute programmatically.\n\n"

/-- One row of `helpcenter_articles.csv` as loaded by the notebook:
a record with a `policy` field and a `content` field. -/
structure Article where
  policy : String
  content : String
deriving DecidableEq, Repr

/-- The record built by `process_article`: the input fields plus the
generated `routine` (which is `None` when generation failed). -/
structure ProcessedArticle where
  policy : String
  content : String
  routine : Option String
deriving DecidableEq, Repr

/-- The notebook's model constant `MODEL = 'o1-preview'`. -/
def MODEL : String := "o1-preview"

/-- The user-message content built by the f-string inside `generate_routine`:
a newline and indentation, then `CONVERSION_PROMPT`, a blank line, the
`POLICY:` header, the policy text, and the closing indentation. -/
def messageContent (policy : String) : String :=
  "\n                    " ++ CONVERSION_PROMPT ++
    "\n\n                    POLICY:\n                    " ++ policy ++
    "\n                "

/-- `generate_routine(policy)`.  The chat-completions call
`client.chat.completions.create(model=MODEL, messages=messages)` is modelled
by `create`, a function of the model name and the message list (role/content
pairs) returning either the first choice's message content or a raised
exception.  The `except` branch prints `An error occurred: {e}` and falls
through, so the function returns `None` there; the printed line is returned
as the second component. -/
def generate_routine (create : String → List (String × String) → Except String String)
    (policy : String) : Option String × List String :=
  match create MODEL [("user", messageContent policy)] with
  | .ok response => (some response, [])
  | .error e => (none, ["An error occurred: " ++ e])

/-- `process_article(article)`: generate a routine from the article's
`content` and return the three-field record. -/
def process_article (create : String → List (String × String) → Except String String)
    (article : Article) : ProcessedArticle :=
  { policy := article.policy
    content := article.content
    routine := (generate_routine create article.content).1 }

/-- The batch over the article list, as a sequential map of
`process_article` (the value of the notebook's `results`). -/
def runBatch (create : String → List (String × String) → Except String String)
    (articles : List Article) : List ProcessedArticle :=
  articles.map (process_article create)

/-- One completed task of the thread pool: each index `i` of the schedule
produces the pair of `i` and `f` applied to the `i`-th input, in the order
the scheduler finishes them. -/
def runTasks {α β : Type} (f : α → β) (xs : List α) (sched : List Nat) :
    List (Nat × β) :=
  sched.filterMap (fun i => (xs[i]?).map (fun a => (i, f a)))

/-- The join/barrier of `executor.map`: after all workers finish, the result
for each input position is looked up among the completed tasks, recollecting
results positionally. -/
def collectPositional {β : Type} (n : Nat) (done : List (Nat × β)) :
    List (Option β) :=
  (List.range n).map (fun i => (done.find? (fun p => p.1 == i)).map Prod.snd)

/-- `executor.map(f, xs)` under a completion schedule `sched` (the order in
which workers finish): run every scheduled task, then recollect positionally. -/
def threadPoolMap {α β : Type} (f : α → β) (xs : List α) (sched : List Nat) :
    List (Option β) :=
  collectPositional xs.length (runTasks f xs sched)

/-- Modelled from the spec: the sequential map of `process_article` over the
article list, against which the parallel batch is compared. -/
def seqBatchSpec (create : String → List (String × String) → Except String String)
    (articles : List Article) : List ProcessedArticle :=
  articles.map (process_article create)

end RoutineGen

namespace SnowflakeApp

/-- The two exception kinds the middleware's token extraction can raise
before any `try`: `AttributeError` from `None.split()` when the
`Authorization` header is absent, and `ValueError` from unpacking
`auth_header.split()` into `token_type, token` when the split does not have
exactly two parts. -/
inductive PyError where
  | attributeError
  | valueError
deriving DecidableEq, Repr

/-- `req.headers.get(name)`: first matching header value, if any. -/
def getHeader (headers : List (String × String)) (name : String) : Option String :=
  (headers.find? (fun p => p.1 == name)).map Prod.snd

/-- Python's `str.split()` with no arguments: split on whitespace runs,
discarding empty pieces. -/
def pySplit (s : String) : List String :=
  (s.split Char.isWhitespace).filter (fun t => t != "")

/-- The `try` block around the Snowflake connection: `jwt.decode` plus
`decoded_token.get('upn')` are modelled by `decodeUpn`, and
`snowflake.connector.connect(user=email, ..., token=token)` by `connect`.
Any raised exception is caught and logged as
`Failed to connect to Snowflake: {e}`; on success the connection is kept and
`Successfully connected to Snowflake.` is logged. -/
def connectBlock {Conn : Type} (decodeUpn : String → Except String String)
    (connect : String → String → Except String Conn) (token : String) :
    Option Conn × List String :=
  match (decodeUpn token).bind (fun email => connect email token) with
  | .ok conn => (some conn, ["Successfully connected to Snowflake."])
  | .error e => (none, ["Failed to connect to Snowflake: " ++ e])

/-- The head of the middleware handler:
`auth_header = req.headers.get('Authorization')` followed by
`token_type, token = auth_header.split()`, both OUTSIDE any `try`, and then
the guarded connection block.  A missing header raises `AttributeError` and
a split of length ≠ 2 raises `ValueError`; both propagate to the caller. -/
def handleAuth {Conn : Type} (decodeUpn : String → Except String String)
    (connect : String → String → Except String Conn)
    (headers : List (String × String)) :
    Except PyError (Option Conn × List String) :=
  match getHeader headers "Authorization" with
  | none => .error .attributeError
  | some auth_header =>
    match pySplit auth_header with
    | [_token_type, token] => .ok (connectBlock decodeUpn connect token)
    | _ => .error .valueError

/-- The state of Python's `csv.writer` on the temporary file: the list of
rows written so far. -/
structure CsvWriter where
  rows : List (List String)
deriving DecidableEq, Repr

/-- `csv_writer.writerow(r)`: append one row. -/
def writerow (w : CsvWriter) (r : List String) : CsvWriter :=
  ⟨w.rows ++ [r]⟩

/-- `csv_writer.writerows(rs)`: write each row in order. -/
def writerows (w : CsvWriter) (rs : List (List String)) : CsvWriter :=
  rs.foldl writerow w

/-- `write_results_to_csv(results, column_names)`: on a fresh temporary
file, write the column headers with `writerow`, then the data rows with
`writerows`; the resulting file contents are the rows written. -/
def write_results_to_csv (results : List (List String)) (column_names : List String) :
    List (List String) :=
  (writerows (writerow ⟨[]⟩ column_names) results).rows

/-- The `try` block around query execution: `cursor.execute(sql_query)`,
`cursor.fetchall()` and `cursor.description` are modelled by `execQuery`
returning the result rows and the column names (or a raised exception).
On success the results are serialized by `write_results_to_csv` and
`Query executed successfully: {sql_query}` is logged; a raised exception is
caught and logged as `Error executing query or processing data: {e}`. -/
def queryBlock (execQuery : String → Except String (List (List String) × List String))
    (sql_query : String) : Option (List (List String)) × List String :=
  match execQuery sql_query with
  | .ok (results, column_names) =>
      (some (write_results_to_csv results column_names),
       ["Query executed successfully: " ++ sql_query])
  | .error e => (none, ["Error executing query or processing data: " ++ e])

/-- The `permission=BlobSasPermissions(read=True)` argument: only the fields
named in the call are true, every other permission keeps its `False`
default. -/
structure BlobSasPermissions where
  read : Bool
  add : Bool
  create : Bool
  write : Bool
  delete : Bool
deriving DecidableEq, Repr

/-- The SAS token produced by `generate_blob_sas`, recording the arguments
the middleware passes to it (expiry in seconds of UTC time). -/
structure SasToken where
  account_name : String
  container_name : String
  blob_name : String
  account_key : String
  permission : BlobSasPermissions
  expiry : Nat
deriving DecidableEq, Repr

/-- `generate_blob_sas(...)`: package the request into a token. -/
def generate_blob_sas (account_name container_name blob_name account_key : String)
    (permission : BlobSasPermissions) (expiry : Nat) : SasToken :=
  { account_name, container_name, blob_name, account_key, permission, expiry }

/-- The storage connection string, as consumed by
`BlobServiceClient.from_connection_string`: it determines the client's
`account_name` and `credential.account_key`. -/
structure ConnectionString where
  account_name : String
  account_key : String
deriving DecidableEq, Repr

/-- `upload_csv_to_azure(file_path, container_name, blob_name, connect_str)`.
The blob upload call is modelled by `uploadBlob` (a raised exception or
success), serialization of the SAS token into the URL query string by
`sasString`, and `datetime.datetime.utcnow()` by `utcnow` (seconds), so
`timedelta(hours=1)` is 3600.  On success it logs the upload, mints a SAS
token with `BlobSasPermissions(read=True)` and expiry `utcnow + 3600`,
returns the blob URL with the token appended after `?`, and logs the URL.
On failure it logs `Error uploading file to Azure Blob Storage: {e}` and
re-raises the exception (`raise`), modelled by returning `Except.error`. -/
def upload_csv_to_azure (uploadBlob : Except String Unit)
    (sasString : SasToken → String) (utcnow : Nat)
    (file_path container_name blob_name : String)
    (connect_str : ConnectionString) : Except String String × List String :=
  match uploadBlob with
  | .error e =>
      (.error ("Error uploading file to Azure Blob Storage: " ++ e),
       ["Error uploading file to Azure Blob Storage: " ++ e])
  | .ok _ =>
      let sas_token := generate_blob_sas connect_str.account_name container_name
        blob_name connect_str.account_key
        { read := true, add := false, create := false, write := false, delete := false }
        (utcnow + 3600)
      let url := "https://" ++ connect_str.account_name ++ ".blob.core.windows.net/"
        ++ container_name ++ "/" ++ blob_name ++ "?" ++ sasString sas_token
      (.ok url,
       ["Successfully uploaded " ++ file_path ++ " to " ++ container_name ++ "/" ++ blob_name,
        "Generated presigned URL: " ++ url])

/-- The final response-shaping cell: wrap the CSV URL in an
`openaiFileResponse` list and return it with HTTP status 200. -/
def formatFileResponse (csv_url : String) : Nat × List (String × List String) :=
  (200, [("openaiFileResponse", [csv_url])])

/-- A JSON schema fragment of the documented OpenAPI schema. -/
inductive SchemaSpec where
  | str (format : Option String)
  | arr (items : SchemaSpec)
  | obj (properties : List (String × SchemaSpec)) (required : List String)

/-- One response entry of the documented OpenAPI schema: HTTP status,
description, and the `application/json` schema when one is given. -/
structure ResponseSpec where
  status : Nat
  description : String
  jsonSchema : Option SchemaSpec

/-- The documented `executeSQL` operation. -/
structure OperationSpec where
  operationId : String
  summary : String
  requestRequired : Bool
  requestSchema : SchemaSpec
  responses : List ResponseSpec

/-- The `executeSQL` POST operation of the notebook's OpenAPI schema,
transcribed field by field. -/
def executeSQL : OperationSpec :=
  { operationId := "executeSQL"
    summary := "Executes a SQL query on Snowflake and returns the result file URL as a CSV."
    requestRequired := true
    requestSchema := .obj [("sql_query", .str none)] ["sql_query"]
    responses :=
      [ { status := 200
          description := "Successfully executed the query."
          jsonSchema := some (.obj
            [("openaiFileResponse", .arr (.str (some "uri")))] []) },
        { status := 401
          description := "Unauthorized. Missing or invalid authentication token."
          jsonSchema := none },
        { status := 400
          description := "Bad Request. The request was invalid or cannot be otherwise served."
          jsonSchema := none },
        { status := 500
          description := "Internal Server Error. An error occurred on the server."
          jsonSchema := none } ] }

/-- The documented `AZURE_AD_ISSUER` pattern:
`https://sts.windows.net/TENANT_ID/`. -/
def AZURE_AD_ISSUER (TENANT_ID : String) : String :=
  "https://sts.windows.net/" ++ TENANT_ID ++ "/"

/-- The documented `AZURE_AD_JWS_KEY_ENDPOINT` pattern:
`https://login.microsoftonline.com/TENANT_ID/discovery/v2.0/keys`. -/
def AZURE_AD_JWS_KEY_ENDPOINT (TENANT_ID : String) : String :=
  "https://login.microsoftonline.com/" ++ TENANT_ID ++ "/discovery/v2.0/keys"

/-- Modelled from the spec: the issuer pattern as section 8 of the spec
words it, an issuer URL derived from a tenant identifier. -/
def issuerPatternSpec (tenant : String) : String :=
  "https://sts.windows.net/" ++ tenant ++ "/"

/-- Modelled from the spec: the key-endpoint pattern derived from a tenant
identifier. -/
def jwsKeyEndpointPatternSpec (tenant : String) : String :=
  "https://login.microsoftonline.com/" ++ tenant ++ "/discovery/v2.0/keys"

end SnowflakeApp

namespace RoutineGen

theorem find_runTasks {α β : Type} (f : α → β) (xs : List α) (i : Nat)
    (hi : i < xs.length) :
    ∀ l : List Nat, i ∈ l → (∀ j ∈ l, j < xs.length) →
      (runTasks f xs l).find? (fun p => p.1 == i) = some (i, f (xs.get ⟨i, hi⟩)) := by
  intro l
  induction l with
  | nil => intro h; cases h
  | cons j l ih =>
    intro hmem hlt
    have hj : j < xs.length := hlt j (List.mem_cons_self j l)
    have hget : xs[j]? = some (xs.get ⟨j, hj⟩) := by
      rw [List.getElem?_eq_getElem hj]; rfl
    have hcons : runTasks f xs (j :: l)
        = (j, f (xs.get ⟨j, hj⟩)) :: runTasks f xs l := by
      simp [runTasks, List.filterMap_cons, hget]
    by_cases hji : j = i
    · subst hji
      rw [hcons, List.find?_cons_of_pos]
      simp
    · have hmem' : i ∈ l := by
        rcases List.mem_cons.mp hmem with h | h
        · exact absurd h.symm hji
        · exact h
      have htail := ih hmem' (fun k hk => hlt k (List.mem_cons_of_mem j hk))
      rw [hcons, List.find?_cons_of_neg]
      · exact htail
      · simp [hji]

/-- Claim C1: for every input list of articles and every completion order of
the thread pool that runs each submitted task exactly once, the parallel
fan-out `executor.map(process_article, articles)` recollected positionally
produces a list of the same length whose i-th element is `process_article`
of the i-th article, i.e. it equals the sequential map of `process_article`
over the list. -/
theorem threadPool_eq_sequential
    (create : String → List (String × String) → Except String String)
    (articles : List Article) (sched : List Nat)
    (hs : sched.Perm (List.range articles.length)) :
    threadPoolMap (process_article create) articles sched
      = (seqBatchSpec create articles).map some := by
  have hmem : ∀ j, j ∈ sched ↔ j < articles.length := by
    intro j
    rw [hs.mem_iff, List.mem_range]
  apply List.ext_getElem
  · simp [threadPoolMap, collectPositional, seqBatchSpec]
  · intro i h1 h2
    have hn : i < articles.length := by
      simpa [threadPoolMap, collectPositional] using h1
    have hfind := find_runTasks (process_article create) articles i hn sched
      ((hmem i).2 hn) (fun j hj => (hmem j).1 hj)
    simp [threadPoolMap, collectPositional, seqBatchSpec, hfind]

/-- Witness for C1: a two-article batch completed in reversed order. -/
theorem threadPool_eq_sequential_witness :
    ([1, 0] : List Nat).Perm
        (List.range ([Article.mk "p0" "c0", Article.mk "p1" "c1"] : List Article).length) ∧
      threadPoolMap (process_article (fun _ _ => Except.ok "routine"))
          [Article.mk "p0" "c0", Article.mk "p1" "c1"] [1, 0]
        = (seqBatchSpec (fun _ _ => Except.ok "routine")
            [Article.mk "p0" "c0", Article.mk "p1" "c1"]).map some :=
  ⟨by decide, threadPool_eq_sequential (fun _ _ => Except.ok "routine")
    [Article.mk "p0" "c0", Article.mk "p1" "c1"] [1, 0] (by decide)⟩

/-- Claim C7: `process_article` leaves the article's `policy` and `content`
fields unchanged in the corresponding output record; the only field it adds
is the generated `routine`. -/
theorem process_article_frame
    (create : String → List (String × String) → Except String String)
    (articles : List Article) (i : Nat) (h : i < articles.length) :
    ∃ p : ProcessedArticle,
      (runBatch create articles)[i]? = some p ∧
      p.policy = (articles[i]).policy ∧
      p.content = (articles[i]).content ∧
      p.routine = (generate_routine create (articles[i]).content).1 := by
  refine ⟨process_article create (articles[i]), ?_, rfl, rfl, rfl⟩
  simp [runBatch, List.getElem?_eq_getElem h]

/-- Witness for C7 on a one-article batch. -/
theorem process_article_frame_witness :
    (0 : Nat) < ([Article.mk "p0" "c0"] : List Article).length ∧
      ∃ p : ProcessedArticle,
        (runBatch (fun _ _ => Except.ok "r") [Article.mk "p0" "c0"])[0]? = some p ∧
        p.policy = "p0" ∧ p.content = "c0" ∧
        p.routine = (generate_routine (fun _ _ => Except.ok "r") "c0").1 :=
  ⟨by decide, by
    simpa using process_article_frame (fun _ _ => Except.ok "r")
      [Article.mk "p0" "c0"] 0 (by decide)⟩

/-- Claim C8: each article is processed in isolation; for any two input
lists that agree on the i-th article, the i-th result is the same, namely
`process_article` of that article (the endpoint modelled as a function of
its input). -/
theorem batch_isolation
    (create : String → List (String × String) → Except String String)
    (xs ys : List Article) (i : Nat) (hx : i < xs.length) (hy : i < ys.length)
    (hagree : xs[i] = ys[i]) :
    (runBatch create xs)[i]? = (runBatch create ys)[i]? ∧
    (runBatch create xs)[i]? = some (process_article create (xs[i])) := by
  constructor
  · simp [runBatch, List.getElem?_eq_getElem hx, List.getElem?_eq_getElem hy, hagree]
  · simp [runBatch, List.getElem?_eq_getElem hx]

/-- Witness for C8: two batches sharing their first article. -/
theorem batch_isolation_witness :
    (0 : Nat) < ([Article.mk "p" "c", Article.mk "q" "d"] : List Article).length ∧
    (0 : Nat) < ([Article.mk "p" "c"] : List Article).length ∧
    ([Article.mk "p" "c", Article.mk "q" "d"] : List Article)[0]
      = ([Article.mk "p" "c"] : List Article)[0] ∧
    ((runBatch (fun _ _ => Except.ok "r") [Article.mk "p" "c", Article.mk "q" "d"])[0]?
        = (runBatch (fun _ _ => Except.ok "r") [Article.mk "p" "c"])[0]? ∧
      (runBatch (fun _ _ => Except.ok "r") [Article.mk "p" "c", Article.mk "q" "d"])[0]?
        = some (process_article (fun _ _ => Except.ok "r")
            (([Article.mk "p" "c", Article.mk "q" "d"] : List Article)[0]))) :=
  ⟨by decide, by decide, by decide,
    batch_isolation (fun _ _ => Except.ok "r")
      [Article.mk "p" "c", Article.mk "q" "d"] [Article.mk "p" "c"] 0
      (by decide) (by decide) (by decide)⟩

/-- Claim C9: when the chat-completions call for article i raises,
`generate_routine` returns `None`, the failed article still yields a record
in the batch whose `routine` field is `None`, and the batch length always
equals the input length. -/
theorem failed_generation_yields_none
    (create : String → List (String × String) → Except String String)
    (articles : List Article) (i : Nat) (h : i < articles.length) (e : String)
    (hfail : create MODEL [("user", messageContent ((articles[i]).content))]
      = .error e) :
    (runBatch create articles).length = articles.length ∧
    (generate_routine create ((articles[i]).content)).1 = none ∧
    (runBatch create articles)[i]? = some (process_article create (articles[i])) ∧
    (process_article create (articles[i])).routine = none := by
  refine ⟨by simp [runBatch], ?_, ?_, ?_⟩
  · simp [generate_routine, hfail]
  · simp [runBatch, List.getElem?_eq_getElem h]
  · simp [process_article, generate_routine, hfail]

/-- Witness for C9: a one-article batch whose generation call always raises. -/
theorem failed_generation_yields_none_witness :
    (0 : Nat) < ([Article.mk "p" "c"] : List Article).length ∧
    ((runBatch (fun _ _ => Except.error "boom") [Article.mk "p" "c"]).length = 1 ∧
      (generate_routine (fun _ _ => Except.error "boom") "c").1 = none ∧
      (runBatch (fun _ _ => Except.error "boom") [Article.mk "p" "c"])[0]?
        = some (process_article (fun _ _ => Except.error "boom") (Article.mk "p" "c")) ∧
      (process_article (fun _ _ => Except.error "boom") (Article.mk "p" "c")).routine
        = none) :=
  ⟨by decide, by
    simpa using failed_generation_yields_none (fun _ _ => Except.error "boom")
      [Article.mk "p" "c"] 0 (by decide) "boom" rfl⟩

end RoutineGen

namespace SnowflakeApp

theorem writerows_rows (w : CsvWriter) (rs : List (List String)) :
    (writerows w rs).rows = w.rows ++ rs := by
  induction rs generalizing w with
  | nil => simp [writerows]
  | cons r rs ih =>
    show (List.foldl writerow (writerow w r) rs).rows = _
    have := ih (writerow w r)
    simp only [writerows] at this
    rw [this]
    simp [writerow]

/-- Claim C2 counterexample: the claim that no external call's failure
propagates to the caller is false at `upload_csv_to_azure` — when the blob
upload raises, the `except` branch logs and then `raise`s, so the caller
receives the exception. -/
theorem upload_error_propagates :
    (upload_csv_to_azure (Except.error "boom") (fun _ => "sig") 0 "f.csv"
        "container" "blob.csv" { account_name := "acct", account_key := "key" }).1
      = Except.error "Error uploading file to Azure Blob Storage: boom" := rfl

/-- Claim C2 (amended): every external call's failure is caught and its
exception message logged; the Snowflake connection block, the
query-execution block, and `generate_routine` swallow the exception and
continue, but `upload_csv_to_azure` re-raises it after logging, so that one
call's failure does propagate to the caller. -/
theorem catch_log_per_call {Conn : Type} (decodeUpn : String → Except String String)
    (connect : String → String → Except String Conn)
    (execQuery : String → Except String (List (List String) × List String))
    (create : String → List (String × String) → Except String String)
    (sasString : SasToken → String) (utcnow : Nat)
    (token sql_query policy file_path container_name blob_name : String)
    (connect_str : ConnectionString) (e : String)
    (h1 : (decodeUpn token).bind (fun email => connect email token) = .error e)
    (h2 : execQuery sql_query = .error e)
    (h3 : create RoutineGen.MODEL [("user", RoutineGen.messageContent policy)]
      = .error e) :
    connectBlock decodeUpn connect token
      = (none, ["Failed to connect to Snowflake: " ++ e]) ∧
    queryBlock execQuery sql_query
      = (none, ["Error executing query or processing data: " ++ e]) ∧
    RoutineGen.generate_routine create policy
      = (none, ["An error occurred: " ++ e]) ∧
    upload_csv_to_azure (Except.error e) sasString utcnow file_path
        container_name blob_name connect_str
      = (Except.error ("Error uploading file to Azure Blob Storage: " ++ e),
         ["Error uploading file to Azure Blob Storage: " ++ e]) := by
  refine ⟨?_, ?_, ?_, rfl⟩
  · simp [connectBlock, h1]
  · simp [queryBlock, h2]
  · simp [RoutineGen.generate_routine, h3]

/-- Witness for the amended C2 with every modelled call failing with the
same exception message. -/
theorem catch_log_per_call_witness :
    ((Except.error "boom" : Except String String).bind
        (fun email => (fun _ _ => Except.error "other" : String → String → Except String Unit) email "tok")
      = Except.error "boom") ∧
    (connectBlock (fun _ => Except.error "boom")
        (fun _ _ => (Except.error "other" : Except String Unit)) "tok"
      = (none, ["Failed to connect to Snowflake: boom"]) ∧
    queryBlock (fun _ => Except.error "boom") "SELECT 1"
      = (none, ["Error executing query or processing data: boom"]) ∧
    RoutineGen.generate_routine (fun _ _ => Except.error "boom") "policy"
      = (none, ["An error occurred: boom"]) ∧
    upload_csv_to_azure (Except.error "boom") (fun _ => "sig") 0 "f.csv"
        "container" "blob.csv" { account_name := "acct", account_key := "key" }
      = (Except.error "Error uploading file to Azure Blob Storage: boom",
         ["Error uploading file to Azure Blob Storage: boom"])) :=
  ⟨rfl, catch_log_per_call (fun _ => Except.error "boom")
    (fun _ _ => (Except.error "other" : Except String Unit))
    (fun _ => Except.error "boom") (fun _ _ => Except.error "boom")
    (fun _ => "sig") 0 "tok" "SELECT 1" "policy" "f.csv" "container" "blob.csv"
    { account_name := "acct", account_key := "key" } "boom" rfl rfl rfl⟩

/-- Claim C3: the documented `executeSQL` operation accepts a query string
(`sql_query` required), on success answers 200 with a JSON object whose
`openaiFileResponse` is an array of URI strings, and its only failure
statuses are 401, 400 and 500; the middleware's own success response is
status 200 with the `openaiFileResponse` list. -/
theorem executeSQL_contract :
    executeSQL.operationId = "executeSQL" ∧
    executeSQL.requestSchema
      = SchemaSpec.obj [("sql_query", SchemaSpec.str none)] ["sql_query"] ∧
    executeSQL.responses.map ResponseSpec.status = [200, 401, 400, 500] ∧
    (executeSQL.responses.filter (fun r => r.status != 200)).map ResponseSpec.status
      = [401, 400, 500] ∧
    (executeSQL.responses.filter (fun r => r.status == 200)).map ResponseSpec.jsonSchema
      = [some (SchemaSpec.obj
          [("openaiFileResponse", SchemaSpec.arr (SchemaSpec.str (some "uri")))] [])] ∧
    ∀ csv_url, formatFileResponse csv_url
      = (200, [("openaiFileResponse", [csv_url])]) :=
  ⟨rfl, rfl, rfl, rfl, rfl, fun _ => rfl⟩

/-- Claim C4: `write_results_to_csv` produces a file whose first row is
exactly the column names and whose row i+1 is exactly result row i, one
file row per result row. -/
theorem write_results_to_csv_layout (results : List (List String))
    (column_names : List String) (i : Nat) (h : i < results.length) :
    write_results_to_csv results column_names = column_names :: results ∧
    (write_results_to_csv results column_names).length = results.length + 1 ∧
    (write_results_to_csv results column_names).head? = some column_names ∧
    (write_results_to_csv results column_names)[i + 1]? = some (results[i]) := by
  have hrows : write_results_to_csv results column_names = column_names :: results := by
    simp [write_results_to_csv, writerows_rows, writerow]
  refine ⟨hrows, ?_, ?_, ?_⟩
  · rw [hrows]; simp
  · rw [hrows]; rfl
  · rw [hrows]; simp [List.getElem?_eq_getElem h]

/-- Witness for C4 on a two-row result set. -/
theorem write_results_to_csv_layout_witness :
    (0 : Nat) < ([["a", "b"], ["c", "d"]] : List (List String)).length ∧
    (write_results_to_csv [["a", "b"], ["c", "d"]] ["h1", "h2"]
        = ["h1", "h2"] :: [["a", "b"], ["c", "d"]] ∧
      (write_results_to_csv [["a", "b"], ["c", "d"]] ["h1", "h2"]).length = 2 + 1 ∧
      (write_results_to_csv [["a", "b"], ["c", "d"]] ["h1", "h2"]).head?
        = some ["h1", "h2"] ∧
      (write_results_to_csv [["a", "b"], ["c", "d"]] ["h1", "h2"])[0 + 1]?
        = some (([["a", "b"], ["c", "d"]] : List (List String))[0])) :=
  ⟨by decide,
    write_results_to_csv_layout [["a", "b"], ["c", "d"]] ["h1", "h2"] 0 (by decide)⟩

/-- Claim C5: for every tenant identifier, the documented issuer URL is
`https://sts.windows.net/` ++ TENANT_ID ++ `/` and the documented JWS key
endpoint is `https://login.microsoftonline.com/` ++ TENANT_ID ++
`/discovery/v2.0/keys`; moreover the issuer determines the tenant
identifier. -/
theorem azure_ad_patterns (t : String) :
    AZURE_AD_ISSUER t = issuerPatternSpec t ∧
    AZURE_AD_JWS_KEY_ENDPOINT t = jwsKeyEndpointPatternSpec t ∧
    ∀ t₂, AZURE_AD_ISSUER t = AZURE_AD_ISSUER t₂ → t = t₂ := by
  refine ⟨rfl, rfl, ?_⟩
  intro t₂ h
  have hd := congrArg String.data h
  simp only [AZURE_AD_ISSUER, String.data_append, List.append_assoc] at hd
  have h1 := List.append_cancel_left hd
  have h2 := List.append_cancel_right h1
  exact congrArg String.mk h2

/-- Witness for C5 at the tenant identifier used in the notebook's
documented example endpoints. -/
theorem azure_ad_patterns_witness :
    AZURE_AD_ISSUER "90288a9b-97df-4c6d-b025-95713f21cef9"
      = issuerPatternSpec "90288a9b-97df-4c6d-b025-95713f21cef9" ∧
    AZURE_AD_JWS_KEY_ENDPOINT "90288a9b-97df-4c6d-b025-95713f21cef9"
      = jwsKeyEndpointPatternSpec "90288a9b-97df-4c6d-b025-95713f21cef9" ∧
    ("90288a9b-97df-4c6d-b025-95713f21cef9" : String)
      = "90288a9b-97df-4c6d-b025-95713f21cef9" :=
  ⟨(azure_ad_patterns "90288a9b-97df-4c6d-b025-95713f21cef9").1,
    (azure_ad_patterns "90288a9b-97df-4c6d-b025-95713f21cef9").2.1,
    (azure_ad_patterns "90288a9b-97df-4c6d-b025-95713f21cef9").2.2 _ rfl⟩

/-- Claim C6: on every successful upload, the minted SAS token grants
read-only permission (`read=True`, every other permission false) and
expires exactly one hour (3600 seconds) after the moment of generation, and
the returned URL is the blob URL with that SAS token appended as its query
string. -/
theorem upload_sas_contract (uploadBlob : Except String Unit)
    (sasString : SasToken → String) (utcnow : Nat)
    (file_path container_name blob_name : String) (connect_str : ConnectionString)
    (h : uploadBlob = .ok ()) :
    ∃ sas : SasToken,
      sas.permission
        = { read := true, add := false, create := false, write := false, delete := false } ∧
      sas.expiry = utcnow + 3600 ∧
      (upload_csv_to_azure uploadBlob sasString utcnow file_path container_name
          blob_name connect_str).1
        = .ok ("https://" ++ connect_str.account_name ++ ".blob.core.windows.net/"
            ++ container_name ++ "/" ++ blob_name ++ "?" ++ sasString sas) := by
  subst h
  exact ⟨generate_blob_sas connect_str.account_name container_name blob_name
      connect_str.account_key
      { read := true, add := false, create := false, write := false, delete := false }
      (utcnow + 3600), rfl, rfl, rfl⟩

/-- Witness for C6 on a concrete successful upload. -/
theorem upload_sas_contract_witness :
    (Except.ok () : Except String Unit) = .ok () ∧
    ∃ sas : SasToken,
      sas.permission
        = { read := true, add := false, create := false, write := false, delete := false } ∧
      sas.expiry = 1000 + 3600 ∧
      (upload_csv_to_azure (Except.ok ()) (fun _ => "sig") 1000 "f.csv" "container"
          "blob.csv" { account_name := "acct", account_key := "key" }).1
        = .ok ("https://" ++ "acct" ++ ".blob.core.windows.net/"
            ++ "container" ++ "/" ++ "blob.csv" ++ "?" ++ "sig") :=
  ⟨rfl, upload_sas_contract (Except.ok ()) (fun _ => "sig") 1000 "f.csv" "container"
    "blob.csv" { account_name := "acct", account_key := "key" } rfl⟩

/-- Claim C10: the token extraction runs before any `try`/`except`: an
absent `Authorization` header or one that does not split into exactly two
whitespace-separated parts makes `auth_header.split()` (or its two-element
unpacking) raise an uncaught exception, and the connection-error branch is
reachable only for headers that split into exactly two parts. -/
theorem token_extraction_before_try (Conn : Type)
    (decodeUpn : String → Except String String)
    (connect : String → String → Except String Conn)
    (headers : List (String × String)) :
    (getHeader headers "Authorization" = none →
      handleAuth decodeUpn connect headers = .error .attributeError) ∧
    (∀ v, getHeader headers "Authorization" = some v → (pySplit v).length ≠ 2 →
      handleAuth decodeUpn connect headers = .error .valueError) ∧
    (∀ st, handleAuth decodeUpn connect headers = .ok st →
      ∃ v, getHeader headers "Authorization" = some v ∧ (pySplit v).length = 2) := by
  refine ⟨?_, ?_, ?_⟩
  · intro h
    simp [handleAuth, h]
  · intro v hv hlen
    rcases hsp : pySplit v with _ | ⟨a, _ | ⟨b, rest⟩⟩
    · simp [handleAuth, hv, hsp]
    · simp [handleAuth, hv, hsp]
    · rcases rest with _ | ⟨c, rest⟩
      · exact absurd (by rw [hsp]; rfl) hlen
      · simp [handleAuth, hv, hsp]
  · intro st hok
    rcases hh : getHeader headers "Authorization" with _ | v
    · simp [handleAuth, hh] at hok
    · refine ⟨v, rfl, ?_⟩
      rcases hsp : pySplit v with _ | ⟨a, _ | ⟨b, rest⟩⟩
      · simp [handleAuth, hh, hsp] at hok
      · simp [handleAuth, hh, hsp] at hok
      · rcases rest with _ | ⟨c, rest⟩
        · rfl
        · simp [handleAuth, hh, hsp] at hok

/-- Witness for C10: a request with no `Authorization` header raises the
uncaught `AttributeError`. -/
theorem token_extraction_before_try_witness :
    getHeader ([("Content-Type", "application/json")]) "Authorization" = none ∧
    handleAuth (fun _ => Except.error "bad token")
        (fun _ _ => (Except.ok () : Except String Unit))
        [("Content-Type", "application/json")]
      = Except.error PyError.attributeError :=
  ⟨rfl, (token_extraction_before_try Unit (fun _ => Except.error "bad token")
    (fun _ _ => Except.ok ()) [("Content-Type", "application/json")]).1 rfl⟩

end SnowflakeApp
